import Mathlib

/-!
Shallow embedding of `src/gltfexport.cpp` (the Pixel Model Maker glTF exporter)
and proofs about its deduplication / document-assembly pipeline.

Modelling conventions:
* The Qt `QJsonValue` type is the inductive `JVal`.  A lookup of a missing key in a
  `QJsonObject` yields the `Undefined` value (`JVal.undef`), which is distinct
  from JSON `null` (`JVal.null`); `QJsonValue::isNull()` is true only for the
  latter.  `toString` returns the empty (null) string for non-strings,
  `toInt` returns `0` for anything that is not a whole-number double in
  32-bit `int` range, `toArray`/`toObject` return empty containers for
  non-arrays/non-objects, exactly as the Qt conversions used by the source.
* A `QJsonObject` is an association list `JObj`; `jtake` models
  `QJsonObject::take` (returns the value, or Undefined when absent, and
  removes the key).
* `QMap<K, int>` as used in `buildUniqueVectors` is modelled as an
  association list kept in insertion order (`lookupOrInsert` mirrors the
  contains/size/insert pattern of the source).  The C++ `QMap` iterates in
  key-sorted order, but the only iteration in the source writes
  `vec[iter.value()] = iter.key()`, whose result is independent of the
  iteration order because the stored index values are pairwise distinct;
  `scatter` performs those writes in insertion order.
* File access (`QFile` on the `:/ui/exports/` resources) is a parameter
  `fs : String → TemplateFile`; a parse by `QJsonDocument::fromJson` that
  fails, or yields a non-object, produces an empty object, which
  `TemplateFile.readable none` models.  The sink (the `QFile`
  open of `writeModel`) is a boolean parameter.
* `QVector::operator[]` out of bounds is undefined behaviour; `write`
  returns `none` when the source would perform such an access
  (`shapes[0]` on an empty vector), and `some` of the emitted signal
  otherwise (`Except.error (fileName, message)` for the `error` signal,
  `Except.ok doc` for `exported` together with the assembled document).
* The C++ `int` arithmetic of `insertNodes` (the `row*2+1` / `col*2+1`
  translations, the `2*depth - 1` scale and the `2*height` root
  translation) is modelled with an explicit two's-complement wrap
  (`wrap32`): signed `int` overflow, undefined behaviour in C++, is
  reachable there from small documents (`toInt` admits values up to
  2147483647), and the model records the wrapped 32-bit value those
  operations produce.
* `QColor` parsing inside `materialsFromColors` is an external collaborator
  (color-name → RGBA); a material is modelled by the color string it was
  built from, which is all the claims about materials need.
-/

namespace GLTF

/-- Qt `QJsonValue`: JSON values plus the distinguished `Undefined` value
returned by lookups of absent keys.  A JSON number is represented by
`intNum n` when it is a whole number (the only case `toInt` converts) and by
`nonIntNum` otherwise. -/
inductive JVal : Type where
  | undef : JVal
  | null : JVal
  | jbool : Bool → JVal
  | intNum : Int → JVal
  | nonIntNum : JVal
  | str : String → JVal
  | arr : List JVal → JVal
  | obj : List (String × JVal) → JVal

/-- A `QJsonObject`: association list of fields. -/
abbrev JObj := List (String × JVal)

/-- Model of `QJsonValue::isNull()` — true only for JSON null, not for Undefined. -/
def JVal.isNull : JVal → Bool
  | .null => true
  | _ => false

/-- Model of `QJsonValue::toString()` — the string for String values, the null
(empty) string otherwise. -/
def JVal.toString : JVal → String
  | .str s => s
  | _ => ""

/-- Model of `QJsonValue::toInt()` — the value for whole-number doubles in `int`
range, `0` (the default) otherwise. -/
def JVal.toInt : JVal → Int
  | .intNum n => if -(2 ^ 31) ≤ n ∧ n < 2 ^ 31 then n else 0
  | _ => 0

/-- Model of `QJsonValue::toArray()` — the elements for Array values, empty list
otherwise. -/
def JVal.toArray : JVal → List JVal
  | .arr xs => xs
  | _ => []

/-- Model of `QJsonValue::toObject()` — the fields for Object values, empty object
otherwise. -/
def JVal.toObject : JVal → JObj
  | .obj kvs => kvs
  | _ => []

/-- Model of `QJsonObject::take(key)`: returns the value stored under `key`
(`Undefined` when absent) and the object with that key removed. -/
def jtake : JObj → String → JVal × JObj
  | [], _ => (JVal.undef, [])
  | kv :: rest, k =>
    if kv.1 = k then (kv.2, rest)
    else
      let r := jtake rest k
      (r.1, kv :: r.2)

/-- The struct `GLTFExport::Node` — one per retained cell. -/
structure Node where
  mesh : Nat
  depth : Int
  row : Nat
  col : Nat
  deriving DecidableEq

/-- The local state of `buildUniqueVectors`: the three deduplicating maps
(in insertion order, pairing each key with its assigned index) and the node
list accumulated so far. -/
structure BuildState where
  uniqueShapes : List (String × Nat)
  uniqueColors : List (String × Nat)
  uniqueMeshes : List ((Nat × Nat) × Nat)
  nodes : List Node

/-- The empty state at the start of `buildUniqueVectors`. -/
def initState : BuildState :=
  { uniqueShapes := [], uniqueColors := [], uniqueMeshes := [], nodes := [] }

/-- The `if (!map.contains(k)) { idx = map.size(); map.insert(k, idx); }
else { idx = map[k]; }` pattern of `buildUniqueVectors`: returns the
updated map and the index assigned to `k`. -/
def lookupOrInsert {K : Type} [BEq K] (m : List (K × Nat)) (k : K) :
    List (K × Nat) × Nat :=
  match m.find? (fun kv => kv.1 == k) with
  | some kv => (m, kv.2)
  | none => (m ++ [(k, m.length)], m.length)

/-- The body of the inner loop of `buildUniqueVectors` for the cell object
at row `i`, column `j`: take `color`/`shape`/`depth`, skip the cell when any
of the three is JSON null, otherwise dedup-index the shape, the color and
the (shapeIdx, colorIdx) pair and append a `Node`. -/
def processCell (st : BuildState) (i j : Nat) (item : JObj) : BuildState :=
  let tColor := jtake item "color"
  let tShape := jtake tColor.2 "shape"
  let tDepth := jtake tShape.2 "depth"
  if tColor.1.isNull || tShape.1.isNull || tDepth.1.isNull then st
  else
    let color := tColor.1.toString
    let shape := tShape.1.toString
    let depth := tDepth.1.toInt
    let rs := lookupOrInsert st.uniqueShapes shape
    let rc := lookupOrInsert st.uniqueColors color
    let rm := lookupOrInsert st.uniqueMeshes (rs.2, rc.2)
    { uniqueShapes := rs.1, uniqueColors := rc.1, uniqueMeshes := rm.1,
      nodes := st.nodes ++ [⟨rm.2, depth, i, j⟩] }

/-- The inner (`j`) loop of `buildUniqueVectors` over one row. -/
def runRow (i : Nat) : Nat → BuildState → List JVal → BuildState
  | _, st, [] => st
  | j, st, c :: cs => runRow i (j + 1) (processCell st i j c.toObject) cs

/-- The outer (`i`) loop of `buildUniqueVectors` over the rows of the
pixel map. -/
def runRows : Nat → BuildState → List JVal → BuildState
  | _, st, [] => st
  | i, st, r :: rs => runRows (i + 1) (runRow i 0 st r.toArray) rs

/-- The first phase of `GLTFExport::buildUniqueVectors` on a pixel map. -/
def buildState (pixelMap : List JVal) : BuildState :=
  runRows 0 initState pixelMap

/-- The second phase of `buildUniqueVectors`: `vec.resize(map.size())`
followed by `vec[iter.value()] = iter.key()` for every map entry (see the
iteration-order note in the header comment). -/
def scatter {K : Type} (m : List (K × Nat)) (dflt : K) : List K :=
  m.foldl (fun acc kv => acc.set kv.2 kv.1) (List.replicate m.length dflt)

/-- One entry of the `nodes` array of the output.  Cell nodes carry
`mesh`/`translation`/`scale`; the synthetic root node carries
`children`/`translation`/`rotation`.  `none` models an absent key. -/
structure NodeDef where
  mesh : Option Nat
  translation : Int × Int × Int
  scale : Option (Int × Int × Int)
  children : Option (List Nat)
  rotation : Option (Rat × Rat × Rat × Rat)
  deriving DecidableEq

/-- The fixed root-node rotation quaternion
`(0, 0, -0.7071068286895752, 0.7071068286895752)` of `insertNodes`
(the decimal literals modelled exactly as rationals). -/
def rotationQuat : Rat × Rat × Rat × Rat :=
  (0, 0, -(7071068286895752 : Rat) / 10000000000000000,
   (7071068286895752 : Rat) / 10000000000000000)

/-- Two's-complement wrap-around of C++ 32-bit `int` arithmetic: the value
in `[-2^31, 2^31)` congruent to `n` modulo `2^32`.  Wrapping a composed
integer expression once equals wrapping every intermediate operation,
since all of `+`, `-`, `*` are congruences modulo `2^32`. -/
def wrap32 (n : Int) : Int := (n + 2 ^ 31) % 2 ^ 32 - 2 ^ 31

/-- The per-cell part of `GLTFExport::insertNodes`: one definition per
`Node`, with `mesh = node.mesh`, `translation = (row*2+1, col*2+1, 0)` and
`scale = (1, 1, 2*depth - 1)`, each component computed in 32-bit `int`
arithmetic. -/
def cellNodeDefs (nodes : List Node) : List NodeDef :=
  nodes.map (fun n =>
    { mesh := some n.mesh,
      translation := (wrap32 ((n.row : Int) * 2 + 1),
                      wrap32 ((n.col : Int) * 2 + 1), 0),
      scale := some (1, 1, wrap32 (2 * n.depth - 1)),
      children := none, rotation := none })

/-- The synthetic root node appended by `insertNodes`: children
`[0, …, numNodes-1]`, translation `(0, 2*height, 0)` computed in 32-bit
`int` arithmetic, the fixed rotation. -/
def rootNodeDef (numNodes : Nat) (height : Int) : NodeDef :=
  { mesh := none, translation := (0, wrap32 (2 * height), 0), scale := none,
    children := some (List.range numNodes), rotation := some rotationQuat }

/-- Model of `GLTFExport::insertNodes`: all cell nodes followed by the root node. -/
def insertNodes (nodes : List Node) (height : Int) : List NodeDef :=
  cellNodeDefs nodes ++ [rootNodeDef nodes.length height]

/-- One entry of the `meshes` array of the output (the accessor and
material references of its single primitive). -/
structure MeshDef where
  position : Nat
  normal : Nat
  indices : Nat
  material : Nat
  deriving DecidableEq

/-- Model of `GLTFExport::insertMeshes`: for the mesh pair `(shapeIdx, colorIdx)`,
`POSITION = shapeIdx*3`, `NORMAL = shapeIdx*3+1`, `indices = shapeIdx*3+2`,
`material = colorIdx`. -/
def insertMeshes (meshes : List (Nat × Nat)) : List MeshDef :=
  meshes.map (fun p =>
    { position := p.1 * 3, normal := p.1 * 3 + 1, indices := p.1 * 3 + 2,
      material := p.2 })

/-- One entry of the `materials` array of the output, identified by the color
string it was built from (the color-string → RGBA parse of
`materialsFromColors` is an external collaborator). -/
structure MaterialDef where
  baseColor : String
  deriving DecidableEq

/-- Model of `GLTFExport::insertMaterials` / `materialsFromColors`: one material per
entry of the deduplicated color vector, in order. -/
def insertMaterials (colors : List String) : List MaterialDef :=
  colors.map (fun c => { baseColor := c })

/-- The `asset` block of `GLTFExport::insertInfo`. -/
structure AssetDef where
  generator : String
  version : String
  deriving DecidableEq

/-- The constant asset block of `insertInfo`. -/
def assetInfo : AssetDef := { generator := "Pixel Model Maker", version := "2.0" }

/-- What the file system holds at a template path: no file, a file that
cannot be opened, or a readable file whose contents parse to the object
`some o` (or to nothing / a non-object: `none`). -/
inductive TemplateFile : Type where
  | absent : TemplateFile
  | unopenable : TemplateFile
  | readable : Option JObj → TemplateFile

/-- The assembled output document (`exportModel`).  `buffers`,
`bufferViews`, `accessors` hold the `JVal`s taken from the template;
inserting `JVal.undef` corresponds to `QJsonObject::insert` removing the
key. -/
structure Doc where
  asset : AssetDef
  scene : Nat
  scenes : List (List Nat)
  nodes : List NodeDef
  meshes : List MeshDef
  materials : List MaterialDef
  buffers : JVal
  bufferViews : JVal
  accessors : JVal

/-- Model of `GLTFExport::insertShapeData`: open `:/ui/exports/<shapes[0]>.gltf` and
take `buffers`/`bufferViews`/`accessors` from its parsed object.  The outer
`none` marks the undefined-behaviour access `shapes[0]` on an empty vector;
`some none` is the `return false` paths (file absent or unopenable);
`some (some _)` is success.  A file that is readable but fails to parse
yields the empty object (so three Undefined values) and still succeeds. -/
def insertShapeData (fs : String → TemplateFile) (shapes : List String) :
    Option (Option (JVal × JVal × JVal)) :=
  match shapes.get? 0 with
  | none => none
  | some shape0 =>
    match fs (":/ui/exports/" ++ shape0 ++ ".gltf") with
    | .absent => some none
    | .unopenable => some none
    | .readable p =>
      let shapeDef := p.getD []
      let tb := jtake shapeDef "buffers"
      let tv := jtake tb.2 "bufferViews"
      let ta := jtake tv.2 "accessors"
      some (some (tb.1, tv.1, ta.1))

/-- Model of `GLTFExport::write`.  `fileName` is the destination (the
`fileName.toLocalFile()` of the source), `data` the input object, `fs` the
template file system, `sinkOk` whether the destination file of `writeModel`
opens.  The result
is `none` when the run reaches undefined behaviour (`shapes[0]` on an empty
vector), `some (Except.error (fileName, msg))` for the `error(fileName,
msg)` signal, and `some (Except.ok doc)` for `exported(fileName)` with the
document that was serialized. -/
def write (fileName : String) (data : JObj) (fs : String → TemplateFile)
    (sinkOk : Bool) : Option (Except (String × String) Doc) :=
  let tv := jtake data "version"
  let version := tv.1.toString
  if version ≠ "1.0" then
    some (Except.error (fileName, "Invalid version number [1.0 != " ++ version ++ "]"))
  else
    let tw := jtake tv.2 "width"
    let th := jtake tw.2 "height"
    if tw.1.toInt ≠ th.1.toInt then
      some (Except.error (fileName, "invalid size"))
    else
      let tp := jtake th.2 "pixels"
      let st := buildState tp.1.toArray
      let shapes := scatter st.uniqueShapes ""
      let colors := scatter st.uniqueColors ""
      let meshes := scatter st.uniqueMeshes (0, 0)
      match insertShapeData fs shapes with
      | none => none
      | some none => some (Except.error (fileName, "Can\x27t find or open shape files"))
      | some (some bva) =>
        let doc : Doc :=
          { asset := assetInfo, scene := 0, scenes := [[st.nodes.length]],
            nodes := insertNodes st.nodes th.1.toInt,
            meshes := insertMeshes meshes,
            materials := insertMaterials colors,
            buffers := bva.1, bufferViews := bva.2.1, accessors := bva.2.2 }
        if sinkOk then some (Except.ok doc)
        else some (Except.error (fileName, "Can\x27t write to file!"))

/-- The `version` string `write` checks, as extracted from the input. -/
def versionOf (data : JObj) : String := (jtake data "version").1.toString

/-- The `width` integer `write` compares, as extracted from the input
(after `version` was taken). -/
def widthOf (data : JObj) : Int := (jtake (jtake data "version").2 "width").1.toInt

/-- The `height` integer `write` compares and passes to `insertNodes`, as
extracted from the input (after `version` and `width` were taken). -/
def heightOf (data : JObj) : Int :=
  (jtake (jtake (jtake data "version").2 "width").2 "height").1.toInt

/-- The pixel grid `write` walks, as extracted from the input (after
`version`, `width` and `height` were taken). -/
def gridOf (data : JObj) : List JVal :=
  (jtake (jtake (jtake (jtake data "version").2 "width").2 "height").2 "pixels").1.toArray

/-- The number of retained cells of an input: the length of the node list
`buildUniqueVectors` produces from its grid. -/
def numCellsOf (data : JObj) : Nat := (buildState (gridOf data)).nodes.length

/-- The deduplicated shape vector of an input. -/
def shapesOf (data : JObj) : List String :=
  scatter (buildState (gridOf data)).uniqueShapes ""

/-- The skip test of the inner loop of `buildUniqueVectors`: true when none of
`color`/`shape`/`depth` is JSON null in the cell object. -/
def nonNullCell (item : JObj) : Bool :=
  let tColor := jtake item "color"
  let tShape := jtake tColor.2 "shape"
  let tDepth := jtake tShape.2 "depth"
  !(tColor.1.isNull || tShape.1.isNull || tDepth.1.isNull)

/-- The number of cells of one row the inner loop retains. -/
def rowNonNullCount (row : List JVal) : Nat :=
  (row.filter (fun c => nonNullCell c.toObject)).length

/-- The number of cells of the whole grid `buildUniqueVectors` retains. -/
def nonNullCellCount (pixelMap : List JVal) : Nat :=
  (pixelMap.map (fun r => rowNonNullCount r.toArray)).sum

/-- Whether a cell object has a field named `k` at all. -/
def hasKey (o : JObj) (k : String) : Bool := o.any (fun kv => kv.1 == k)

/-- The notion the spec has of a well-formed cell for the node-count property:
the `shape`, `color` and `depth` attributes are all PRESENT (the keys exist
in the cell object).  Stated from the words of the spec, to be compared with the
skip test `nonNullCell` of the source. -/
def specAllPresent (cell : JVal) : Bool :=
  hasKey cell.toObject "color" && hasKey cell.toObject "shape" &&
    hasKey cell.toObject "depth"

/-- The count, per the spec, of cells whose three attributes are all present. -/
def specAllPresentCount (pixelMap : List JVal) : Nat :=
  (pixelMap.map (fun r => (r.toArray.filter specAllPresent).length)).sum

/-- Dictionary-state invariant of a deduplicating map: the stored index
values are exactly `0 .. size-1`, in insertion (list) order. -/
def MapVals {K : Type} (m : List (K × Nat)) : Prop :=
  m.map Prod.snd = List.range m.length

/-- Dictionary-state invariant of a deduplicating map: no key occurs twice
(hence equal keys always map to the same index). -/
def KeysNodup {K : Type} (m : List (K × Nat)) : Prop :=
  (m.map Prod.fst).Nodup

/-- The invariants `buildUniqueVectors` maintains: the three maps assign
dense, duplicate-free indices; every mesh key is a pair of in-range
shape/color indices; every emitted node references an in-range mesh
index. -/
structure StInv (st : BuildState) : Prop where
  shapeVals : MapVals st.uniqueShapes
  shapeKeys : KeysNodup st.uniqueShapes
  colorVals : MapVals st.uniqueColors
  colorKeys : KeysNodup st.uniqueColors
  meshVals : MapVals st.uniqueMeshes
  meshKeys : KeysNodup st.uniqueMeshes
  meshPairBound : ∀ kv ∈ st.uniqueMeshes,
    kv.1.1 < st.uniqueShapes.length ∧ kv.1.2 < st.uniqueColors.length
  nodeMeshBound : ∀ n ∈ st.nodes, n.mesh < st.uniqueMeshes.length

/-- The three dictionaries of one state are (simultaneous) prefixes of
those of another: entries are only ever appended, never changed. -/
def MapsExtend (s t : BuildState) : Prop :=
  s.uniqueShapes <+: t.uniqueShapes ∧ s.uniqueColors <+: t.uniqueColors ∧
    s.uniqueMeshes <+: t.uniqueMeshes

/-- A cell record with all three attributes set. -/
def fullCell (color shape : String) (depth : Int) : JVal :=
  JVal.obj [("color", JVal.str color), ("shape", JVal.str shape),
            ("depth", JVal.intNum depth)]

/-- A cell record whose `color` is explicit JSON null (the kind of cell the
exporter skips). -/
def nullCell : JVal := JVal.obj [("color", JVal.null)]

/-- The grid of the index-stability example: one row whose cells carry
colors `A`, `B`, `A`. -/
def abaGrid : List JVal :=
  [JVal.arr [fullCell "A" "cube" 1, fullCell "B" "cube" 1, fullCell "A" "cube" 1]]

/-- A grid whose single retained cell sits at row 2, column 3, with
depth 4 (rows 0 and 1 are empty, columns 0-2 of row 2 are null cells). -/
def grid234 : List JVal :=
  [JVal.arr [], JVal.arr [],
   JVal.arr [nullCell, nullCell, nullCell, fullCell "red" "cube" 4]]

/-- A well-formed sample input: version `1.0`, a 1×1 grid with one full
cell. -/
def sampleData : JObj :=
  [("version", JVal.str "1.0"), ("width", JVal.intNum 1),
   ("height", JVal.intNum 1),
   ("pixels", JVal.arr [JVal.arr [fullCell "red" "cube" 1]])]

/-- A template file system holding a parseable bundle at every path. -/
def sampleFs : String → TemplateFile := fun _ =>
  TemplateFile.readable (some [("buffers", JVal.arr []),
    ("bufferViews", JVal.arr []), ("accessors", JVal.arr [])])

/-- The document `write` emits for `sampleData` over `sampleFs`. -/
def sampleDoc : Doc :=
  { asset := assetInfo, scene := 0, scenes := [[1]],
    nodes := insertNodes [⟨0, 1, 0, 0⟩] 1,
    meshes := insertMeshes [(0, 0)],
    materials := insertMaterials ["red"],
    buffers := JVal.arr [], bufferViews := JVal.arr [],
    accessors := JVal.arr [] }

/-- A grid holding one single cell that is an empty object: none of the
three attributes is present, yet none of them is JSON null either. -/
def emptyAttrGrid : List JVal := [JVal.arr [JVal.obj []]]

/-- The document `write` emits for `tallData` over `sampleFs`: its root
translation uses the declared `height` field 2, although the grid has a
single row. -/
def tallDoc : Doc :=
  { asset := assetInfo, scene := 0, scenes := [[1]],
    nodes := insertNodes [⟨0, 1, 0, 0⟩] 2,
    meshes := insertMeshes [(0, 0)],
    materials := insertMaterials ["red"],
    buffers := JVal.arr [], bufferViews := JVal.arr [],
    accessors := JVal.arr [] }

/-- A grid whose single cell carries the largest `int` depth 2147483647,
for which `2*depth - 1` overflows 32-bit `int`. -/
def deepGrid : List JVal := [JVal.arr [fullCell "red" "cube" 2147483647]]

/-- A well-formed input whose declared `width` and `height` are both the
largest `int` value 2147483647 (they are equal, so the size check
passes), with one retained cell. -/
def hugeData : JObj :=
  [("version", JVal.str "1.0"), ("width", JVal.intNum 2147483647),
   ("height", JVal.intNum 2147483647),
   ("pixels", JVal.arr [JVal.arr [fullCell "red" "cube" 1]])]

/-- The document `write` emits for `hugeData` over `sampleFs`: its root
translation y-component `2 * 2147483647` overflows to `-2`. -/
def hugeDoc : Doc :=
  { asset := assetInfo, scene := 0, scenes := [[1]],
    nodes := insertNodes [⟨0, 1, 0, 0⟩] 2147483647,
    meshes := insertMeshes [(0, 0)],
    materials := insertMaterials ["red"],
    buffers := JVal.arr [], bufferViews := JVal.arr [],
    accessors := JVal.arr [] }

/-- An input whose `version` is `0.9`. -/
def badVersionData : JObj := [("version", JVal.str "0.9")]

/-- An input with valid version but `width = 4`, `height = 5`. -/
def badSizeData : JObj :=
  [("version", JVal.str "1.0"), ("width", JVal.intNum 4),
   ("height", JVal.intNum 5)]

/-- A valid input whose grid yields zero retained cells (no `pixels`
key at all). -/
def emptyGridData : JObj := [("version", JVal.str "1.0")]

/-- A valid input whose declared `height` field (2) differs from the
number of rows actually present in its `pixels` sequence (1). -/
def tallData : JObj :=
  [("version", JVal.str "1.0"), ("width", JVal.intNum 2),
   ("height", JVal.intNum 2),
   ("pixels", JVal.arr [JVal.arr [fullCell "red" "cube" 1]])]

/-- A template file system whose files all exist and open but do not
parse (modelling `QJsonDocument::fromJson` failure). -/
def unparseableFs : String → TemplateFile := fun _ => TemplateFile.readable none

/-- A template file system with no files at all. -/
def absentFs : String → TemplateFile := fun _ => TemplateFile.absent

/-- A template file system whose files exist but cannot be opened. -/
def unopenableFs : String → TemplateFile := fun _ => TemplateFile.unopenable

/-! Lemmas about the deduplicating-dictionary step. -/

theorem loi_monotone {K : Type} [BEq K] (m : List (K × Nat)) (k : K) :
    m <+: (lookupOrInsert m k).1 := by
  unfold lookupOrInsert
  cases h : m.find? (fun kv => kv.1 == k) with
  | some kv => exact List.prefix_refl m
  | none => exact List.prefix_append m _

theorem loi_len_le {K : Type} [BEq K] (m : List (K × Nat)) (k : K) :
    m.length ≤ (lookupOrInsert m k).1.length :=
  (loi_monotone m k).length_le

theorem loi_ne_nil {K : Type} [BEq K] (m : List (K × Nat)) (k : K) :
    (lookupOrInsert m k).1 ≠ [] := by
  cases m with
  | nil => simp [lookupOrInsert, List.find?]
  | cons a as =>
    intro hnil
    have hlen := loi_len_le (a :: as) k
    rw [hnil] at hlen
    simp at hlen

theorem loi_mapVals {K : Type} [BEq K] {m : List (K × Nat)} (h : MapVals m)
    (k : K) : MapVals (lookupOrInsert m k).1 := by
  unfold lookupOrInsert
  cases hf : m.find? (fun kv => kv.1 == k) with
  | some kv => exact h
  | none =>
    unfold MapVals at h ⊢
    simp [h, List.range_succ]

theorem loi_keysNodup {K : Type} [BEq K] [LawfulBEq K] {m : List (K × Nat)}
    (h : KeysNodup m) (k : K) : KeysNodup (lookupOrInsert m k).1 := by
  unfold lookupOrInsert
  cases hf : m.find? (fun kv => kv.1 == k) with
  | some kv => exact h
  | none =>
    unfold KeysNodup at h ⊢
    rw [List.find?_eq_none] at hf
    simp only [List.map_append, List.map_cons, List.map_nil]
    rw [List.nodup_append]
    refine ⟨h, List.nodup_singleton k, ?_⟩
    intro a ha hb
    rcases List.mem_map.mp ha with ⟨kv, hkv, rfl⟩
    have := hf kv hkv
    simp only [List.mem_singleton] at hb
    simp [hb] at this

theorem loi_idx_lt {K : Type} [BEq K] {m : List (K × Nat)} (h : MapVals m)
    (k : K) : (lookupOrInsert m k).2 < (lookupOrInsert m k).1.length := by
  unfold lookupOrInsert
  cases hf : m.find? (fun kv => kv.1 == k) with
  | some kv =>
    have hm : kv ∈ m := List.mem_of_find?_eq_some hf
    have : kv.2 ∈ m.map Prod.snd := List.mem_map_of_mem Prod.snd hm
    rw [h] at this
    simpa using List.mem_range.mp this
  | none => simp

theorem loi_mem {K : Type} [BEq K] [LawfulBEq K] {m : List (K × Nat)}
    {k : K} {kv : K × Nat} (h : kv ∈ (lookupOrInsert m k).1) :
    kv ∈ m ∨ kv.1 = k := by
  unfold lookupOrInsert at h
  cases hf : m.find? (fun kvp => kvp.1 == k) with
  | some kv0 => rw [hf] at h; exact Or.inl h
  | none =>
    rw [hf] at h
    rcases List.mem_append.mp h with hm | hm
    · exact Or.inl hm
    · right
      simp only [List.mem_singleton] at hm
      rw [hm]

/-! Preservation of the dictionary invariants through the grid walk. -/

theorem processCell_inv {st : BuildState} (h : StInv st) (i j : Nat)
    (item : JObj) : StInv (processCell st i j item) := by
  dsimp only [processCell]
  split
  · exact h
  · refine ⟨loi_mapVals h.shapeVals _, loi_keysNodup h.shapeKeys _,
      loi_mapVals h.colorVals _, loi_keysNodup h.colorKeys _,
      loi_mapVals h.meshVals _, loi_keysNodup h.meshKeys _, ?_, ?_⟩
    · intro kv hkv
      rcases loi_mem hkv with hm | hk
      · obtain ⟨h1, h2⟩ := h.meshPairBound kv hm
        exact ⟨lt_of_lt_of_le h1 (loi_len_le _ _), lt_of_lt_of_le h2 (loi_len_le _ _)⟩
      · rw [hk]
        exact ⟨loi_idx_lt h.shapeVals _, loi_idx_lt h.colorVals _⟩
    · intro n hn
      rcases List.mem_append.mp hn with hm | hm
      · exact lt_of_lt_of_le (h.nodeMeshBound n hm) (loi_len_le _ _)
      · simp only [List.mem_singleton] at hm
        rw [hm]
        exact loi_idx_lt h.meshVals _

theorem runRow_pres (P : BuildState → Prop)
    (hstep : ∀ st i j item, P st → P (processCell st i j item)) :
    ∀ (cs : List JVal) (i j : Nat) (st : BuildState), P st → P (runRow i j st cs) := by
  intro cs
  induction cs with
  | nil => intro i j st h; simpa [runRow] using h
  | cons c cs ih =>
    intro i j st h
    simp only [runRow]
    exact ih i (j + 1) _ (hstep st i j _ h)

theorem runRows_pres (P : BuildState → Prop)
    (hstep : ∀ st i j item, P st → P (processCell st i j item)) :
    ∀ (rows : List JVal) (i : Nat) (st : BuildState), P st → P (runRows i st rows) := by
  intro rows
  induction rows with
  | nil => intro i st h; simpa [runRows] using h
  | cons r rs ih =>
    intro i st h
    simp only [runRows]
    exact ih (i + 1) _ (runRow_pres P hstep _ i 0 st h)

theorem runRow_chain (R : BuildState → BuildState → Prop)
    (hrefl : ∀ s, R s s) (htrans : ∀ {a b c}, R a b → R b c → R a c)
    (hstep : ∀ st i j item, R st (processCell st i j item)) :
    ∀ (cs : List JVal) (i j : Nat) (st : BuildState), R st (runRow i j st cs) := by
  intro cs
  induction cs with
  | nil => intro i j st; simpa [runRow] using hrefl st
  | cons c cs ih =>
    intro i j st
    simp only [runRow]
    exact htrans (hstep st i j _) (ih i (j + 1) _)

theorem runRows_chain (R : BuildState → BuildState → Prop)
    (hrefl : ∀ s, R s s) (htrans : ∀ {a b c}, R a b → R b c → R a c)
    (hstep : ∀ st i j item, R st (processCell st i j item)) :
    ∀ (rows : List JVal) (i : Nat) (st : BuildState), R st (runRows i st rows) := by
  intro rows
  induction rows with
  | nil => intro i st; simpa [runRows] using hrefl st
  | cons r rs ih =>
    intro i st
    simp only [runRows]
    exact htrans (runRow_chain R hrefl htrans hstep _ i 0 st) (ih (i + 1) _)

theorem mapsExtend_refl (s : BuildState) : MapsExtend s s :=
  ⟨List.prefix_refl _, List.prefix_refl _, List.prefix_refl _⟩

theorem mapsExtend_trans {a b c : BuildState} (h1 : MapsExtend a b)
    (h2 : MapsExtend b c) : MapsExtend a c :=
  ⟨h1.1.trans h2.1, h1.2.1.trans h2.2.1, h1.2.2.trans h2.2.2⟩

theorem processCell_extend (st : BuildState) (i j : Nat) (item : JObj) :
    MapsExtend st (processCell st i j item) := by
  dsimp only [processCell]
  split
  · exact mapsExtend_refl st
  · exact ⟨loi_monotone _ _, loi_monotone _ _, loi_monotone _ _⟩

theorem processCell_nodesLen (st : BuildState) (i j : Nat) (item : JObj) :
    (processCell st i j item).nodes.length
      = st.nodes.length + (if nonNullCell item then 1 else 0) := by
  dsimp only [processCell, nonNullCell]
  split
  · next h => simp [h]
  · next h =>
    rw [Bool.not_eq_true] at h
    simp [h]

theorem runRow_nodesLen : ∀ (cs : List JVal) (i j : Nat) (st : BuildState),
    (runRow i j st cs).nodes.length = st.nodes.length + rowNonNullCount cs := by
  intro cs
  induction cs with
  | nil => intro i j st; simp [runRow, rowNonNullCount]
  | cons c cs ih =>
    intro i j st
    simp only [runRow]
    rw [ih, processCell_nodesLen]
    unfold rowNonNullCount
    rw [List.filter_cons]
    by_cases h : nonNullCell c.toObject
    · simp only [h, if_true]
      simp
      omega
    · simp [h]

theorem runRows_nodesLen : ∀ (rows : List JVal) (i : Nat) (st : BuildState),
    (runRows i st rows).nodes.length = st.nodes.length + nonNullCellCount rows := by
  intro rows
  induction rows with
  | nil => intro i st; simp [runRows, nonNullCellCount]
  | cons r rs ih =>
    intro i st
    simp only [runRows]
    rw [ih, runRow_nodesLen]
    simp only [nonNullCellCount, List.map_cons, List.sum_cons]
    omega

theorem runRows_append : ∀ (xs : List JVal) (i : Nat) (st : BuildState)
    (ys : List JVal),
    runRows i st (xs ++ ys) = runRows (i + xs.length) (runRows i st xs) ys := by
  intro xs
  induction xs with
  | nil => intro i st ys; simp [runRows]
  | cons r rs ih =>
    intro i st ys
    simp only [List.cons_append, List.append_eq, runRows]
    rw [ih]
    congr 1
    simp only [List.length_cons]
    omega

theorem processCell_empty {st : BuildState}
    (h : st.nodes = [] ↔ st.uniqueShapes = []) (i j : Nat) (item : JObj) :
    (processCell st i j item).nodes = []
      ↔ (processCell st i j item).uniqueShapes = [] := by
  dsimp only [processCell]
  split
  · exact h
  · constructor
    · intro hn; exact absurd hn (by simp)
    · intro hs; exact absurd hs (loi_ne_nil _ _)

theorem stInv_init : StInv initState := by
  constructor <;> simp [initState, MapVals, KeysNodup]

theorem stInv_buildState (pm : List JVal) : StInv (buildState pm) :=
  runRows_pres StInv (fun _ i j item h => processCell_inv h i j item) pm 0
    initState stInv_init

theorem buildState_empty_iff (pm : List JVal) :
    (buildState pm).nodes = [] ↔ (buildState pm).uniqueShapes = [] :=
  runRows_pres (fun st => st.nodes = [] ↔ st.uniqueShapes = [])
    (fun _ i j item h => processCell_empty h i j item) pm 0 initState
    (by simp [initState])

theorem buildState_extend (pm more : List JVal) :
    MapsExtend (buildState pm) (buildState (pm ++ more)) := by
  unfold buildState
  rw [runRows_append]
  exact runRows_chain MapsExtend mapsExtend_refl mapsExtend_trans
    processCell_extend more _ _

theorem buildState_nodesLen (pm : List JVal) :
    (buildState pm).nodes.length = nonNullCellCount pm := by
  unfold buildState
  rw [runRows_nodesLen]
  simp [initState]

/-! Lemmas about the scatter (map → vector) step. -/

theorem foldlSet_length {K : Type} : ∀ (m : List (K × Nat)) (acc : List K),
    (m.foldl (fun a kv => a.set kv.2 kv.1) acc).length = acc.length := by
  intro m
  induction m with
  | nil => intro acc; rfl
  | cons kv m ih =>
    intro acc
    simp only [List.foldl_cons]
    rw [ih]
    simp

theorem scatter_length {K : Type} (m : List (K × Nat)) (d : K) :
    (scatter m d).length = m.length := by
  unfold scatter
  rw [foldlSet_length]
  simp

theorem take_succ_set {K : Type} : ∀ (acc : List K) (s : Nat), s < acc.length →
    ∀ (x : K), (acc.set s x).take (s + 1) = acc.take s ++ [x] := by
  intro acc
  induction acc with
  | nil => intro s h; simp at h
  | cons a rest ih =>
    intro s h x
    cases s with
    | zero => rfl
    | succ s =>
      have hs : s < rest.length := by simpa using Nat.lt_of_succ_lt_succ h
      show a :: (rest.set s x).take (s + 1) = a :: (rest.take s ++ [x])
      rw [ih s hs x]

theorem foldlSet_eq {K : Type} : ∀ (m : List (K × Nat)) (acc : List K) (s : Nat),
    m.map Prod.snd = List.range' s m.length → acc.length = s + m.length →
    m.foldl (fun a kv => a.set kv.2 kv.1) acc = acc.take s ++ m.map Prod.fst := by
  intro m
  induction m with
  | nil =>
    intro acc s _ hlen
    simp only [List.foldl_nil, List.map_nil, List.append_nil, List.length_nil,
      Nat.add_zero] at hlen ⊢
    rw [← hlen, List.take_length]
  | cons kv m ih =>
    intro acc s hvals hlen
    rw [show ((kv :: m).map Prod.snd) = kv.2 :: m.map Prod.snd from rfl,
      show List.range' s ((kv :: m).length) = s :: List.range' (s + 1) m.length
        from rfl] at hvals
    injection hvals with h1 h2
    simp only [List.foldl_cons]
    rw [ih (acc.set kv.2 kv.1) (s + 1) h2 (by simp at hlen ⊢; omega), h1]
    rw [take_succ_set acc s (by simp at hlen; omega) kv.1]
    simp

theorem scatter_eq_keys {K : Type} {m : List (K × Nat)} (h : MapVals m) (d : K) :
    scatter m d = m.map Prod.fst := by
  unfold scatter
  rw [foldlSet_eq m (List.replicate m.length d) 0
    (by rw [MapVals] at h; rw [h, List.range_eq_range'])
    (by simp)]
  simp

/-! Inversion of a successful `write`. -/

theorem write_ok_inv {f : String} {data : JObj} {fs : String → TemplateFile}
    {ok : Bool} {doc : Doc} (h : write f data fs ok = some (Except.ok doc)) :
    doc.asset = assetInfo ∧ doc.scene = 0 ∧
    doc.scenes = [[numCellsOf data]] ∧
    doc.nodes = insertNodes (buildState (gridOf data)).nodes (heightOf data) ∧
    doc.meshes = insertMeshes (scatter (buildState (gridOf data)).uniqueMeshes (0, 0)) ∧
    doc.materials = insertMaterials (scatter (buildState (gridOf data)).uniqueColors "") := by
  unfold write at h
  simp only [] at h
  split at h
  · simp at h
  · split at h
    · simp at h
    · split at h
      · simp at h
      · simp at h
      · split at h
        · rw [Option.some_inj] at h
          injection h with h
          subst h
          exact ⟨rfl, rfl, rfl, rfl, rfl, rfl⟩
        · simp at h

/-! Claim theorems. -/

/-- C1 (counterexample): the claim that the number of cell nodes equals the
number of cells whose shape, color and depth attributes are all present is
false: a grid holding one cell with NO attributes at all (`{}`) still emits
one node, because `QJsonObject::take` on a missing key returns Undefined,
for which `isNull()` is false, so the skip test does not fire. -/
theorem c1_counterexample :
    (buildState emptyAttrGrid).nodes.length = 1 ∧
    specAllPresentCount emptyAttrGrid = 0 ∧
    (buildState emptyAttrGrid).nodes.length ≠ specAllPresentCount emptyAttrGrid := by
  refine ⟨by decide, by decide, by decide⟩

/-- C1 (amended): for every grid, the number of cell nodes emitted (the
node array excluding the final synthetic root node) equals the number of
cells for which none of the shape, color and depth attributes is JSON
null; a cell with an explicitly-null attribute is dropped silently, while
a cell MISSING an attribute key is read as Undefined (not null) and still
produces a node.  The build phase has no error path. -/
theorem c1_node_count : ∀ (pixelMap : List JVal) (height : Int),
    (insertNodes (buildState pixelMap).nodes height).length - 1
      = nonNullCellCount pixelMap ∧
    (buildState pixelMap).nodes.length = nonNullCellCount pixelMap := by
  intro pixelMap height
  refine ⟨?_, buildState_nodesLen pixelMap⟩
  rw [insertNodes]
  simp [cellNodeDefs, buildState_nodesLen pixelMap]

/-- C2: each of the three deduplicating dictionaries assigns dense
zero-based indices `0..size-1` in first-insertion order (`MapVals`: the
value stored at list position `p` — the `p`-th key ever inserted — is
exactly `p`), maps equal keys to the same index (`KeysNodup`: no key occurs
twice, and `lookupOrInsert` returns the stored index unchanged when the key
is found), never reassigns an index (`MapsExtend`: processing more cells
only appends entries, so every earlier key keeps its index), and the
exported vectors place the key with index `i` at position `i` (`scatter`
equals the key list in insertion order); the grid with colors `[A, B, A]`
yields color indices `A → 0`, `B → 1`. -/
theorem c2_dictionary_indexing : ∀ pixelMap : List JVal,
    (MapVals (buildState pixelMap).uniqueShapes ∧
     MapVals (buildState pixelMap).uniqueColors ∧
     MapVals (buildState pixelMap).uniqueMeshes) ∧
    (KeysNodup (buildState pixelMap).uniqueShapes ∧
     KeysNodup (buildState pixelMap).uniqueColors ∧
     KeysNodup (buildState pixelMap).uniqueMeshes) ∧
    (scatter (buildState pixelMap).uniqueShapes ""
        = (buildState pixelMap).uniqueShapes.map Prod.fst ∧
     scatter (buildState pixelMap).uniqueColors ""
        = (buildState pixelMap).uniqueColors.map Prod.fst ∧
     scatter (buildState pixelMap).uniqueMeshes (0, 0)
        = (buildState pixelMap).uniqueMeshes.map Prod.fst) ∧
    (∀ more : List JVal,
      MapsExtend (buildState pixelMap) (buildState (pixelMap ++ more))) ∧
    (buildState abaGrid).uniqueColors = [("A", 0), ("B", 1)] := by
  intro pixelMap
  have hinv := stInv_buildState pixelMap
  exact ⟨⟨hinv.shapeVals, hinv.colorVals, hinv.meshVals⟩,
    ⟨hinv.shapeKeys, hinv.colorKeys, hinv.meshKeys⟩,
    ⟨scatter_eq_keys hinv.shapeVals _, scatter_eq_keys hinv.colorVals _,
     scatter_eq_keys hinv.meshVals _⟩,
    fun more => buildState_extend pixelMap more,
    by decide⟩

/-- C3 (counterexample): the claim that a retained cell with depth `d`
always yields scale `(1, 1, 2*d-1)` is false: `2 * depth - 1` is computed
in 32-bit `int` arithmetic, and the depth 2147483647 — reachable from the
tiny input cell `{"depth": 2147483647}` — overflows: the emitted scale
z-component is `-3`, not `2*2147483647 - 1 = 4294967293`. -/
theorem c3_counterexample :
    (buildState deepGrid).nodes = [⟨0, 2147483647, 0, 0⟩] ∧
    (insertNodes (buildState deepGrid).nodes 1).get? 0 = some
      { mesh := some 0, translation := (1, 1, 0), scale := some (1, 1, -3),
        children := none, rotation := none } ∧
    ((-3 : Int) ≠ 2 * 2147483647 - 1) :=
  ⟨by decide, by decide, by decide⟩

/-- C3 (amended): the cell node at array position `i` (built from the
retained cell recorded as `Node {mesh, depth, row, col}`) has translation
`(row*2+1, col*2+1, 0)` and scale `(1, 1, 2*depth-1)`, each component
computed in C++ 32-bit `int` arithmetic (signed overflow, undefined
behaviour in C++, modelled as two's-complement wrap-around `wrap32`);
these equal the plain integer values exactly when those fit in `int`
range, and wrap otherwise.  Concretely, the grid whose single retained
cell sits at row 2, column 3 with depth 4 produces translation
`(5, 7, 0)` and scale `(1, 1, 7)`. -/
theorem c3_cell_transform :
    (∀ (nodes : List Node) (height : Int) (i : Nat) (h : i < nodes.length),
      (insertNodes nodes height).get? i = some
        { mesh := some (nodes.get ⟨i, h⟩).mesh,
          translation := (wrap32 (((nodes.get ⟨i, h⟩).row : Int) * 2 + 1),
                          wrap32 (((nodes.get ⟨i, h⟩).col : Int) * 2 + 1), 0),
          scale := some (1, 1, wrap32 (2 * (nodes.get ⟨i, h⟩).depth - 1)),
          children := none, rotation := none }) ∧
    (∀ z : Int, -(2 ^ 31) ≤ z → z < 2 ^ 31 → wrap32 z = z) ∧
    (buildState grid234).nodes = [⟨0, 4, 2, 3⟩] ∧
    (insertNodes (buildState grid234).nodes 3).get? 0 = some
      { mesh := some 0, translation := (5, 7, 0), scale := some (1, 1, 7),
        children := none, rotation := none } := by
  refine ⟨?_, ?_, by decide, by decide⟩
  · intro nodes height i h
    rw [insertNodes, List.get?_append (by simpa [cellNodeDefs] using h)]
    rw [cellNodeDefs, List.get?_map, List.get?_eq_get h]
    rfl
  · intro z h1 h2
    unfold wrap32
    rw [Int.emod_eq_of_lt (by omega) (by omega)]
    omega

/-- C3 (witness): the node recorded as mesh 5, depth 3, row 1, column 2
maps to translation `(3, 5, 0)` and scale `(1, 1, 5)`, and `wrap32` is
the identity on the in-range value 7. -/
theorem c3_witness :
    (insertNodes [({ mesh := 5, depth := 3, row := 1, col := 2 } : Node)] 0).get? 0
      = some { mesh := some 5, translation := (3, 5, 0), scale := some (1, 1, 5),
               children := none, rotation := none } ∧
    wrap32 7 = 7 :=
  ⟨(c3_cell_transform.1 [⟨5, 3, 1, 2⟩] 0 0 (by decide)).trans (by decide),
   c3_cell_transform.2.1 7 (by decide) (by decide)⟩

/-- C5: the mesh definition for the pair `(shapeIndex, colorIndex)` at
mesh index `i` has `POSITION = shapeIndex*3`, `NORMAL = shapeIndex*3+1`,
indices accessor `shapeIndex*3+2` and `material = colorIndex`. -/
theorem c5_mesh_primitives :
    ∀ (meshes : List (Nat × Nat)) (i : Nat) (h : i < meshes.length),
      (insertMeshes meshes).get? i = some
        { position := (meshes.get ⟨i, h⟩).1 * 3,
          normal := (meshes.get ⟨i, h⟩).1 * 3 + 1,
          indices := (meshes.get ⟨i, h⟩).1 * 3 + 2,
          material := (meshes.get ⟨i, h⟩).2 } := by
  intro meshes i h
  rw [insertMeshes, List.get?_map, List.get?_eq_get h]
  rfl

/-- C5 (witness): the mesh pair `(2, 5)` yields POSITION 6, NORMAL 7,
indices 8, material 5. -/
theorem c5_witness :
    (insertMeshes [(2, 5)]).get? 0 = some
      { position := 6, normal := 7, indices := 8, material := 5 } :=
  c5_mesh_primitives [(2, 5)] 0 (by decide)

/-- C4 (counterexample): the claim fixes `height` to be the GRID ROW COUNT
and asserts the plain integer value `2*height`, but the source passes the
input `height` FIELD to `insertNodes` and doubles it in 32-bit `int`
arithmetic.  On an input declaring `height = 2` whose pixel sequence has a
single row, the root translation is `(0, 4, 0)` (from the field), not
`(0, 2, 0)` (from the row count); and on a successful export declaring
`width = height = 2147483647` (which passes the size check), `2 * height`
overflows and the emitted root translation is `(0, -2, 0)`, not
`(0, 4294967294, 0)`. -/
theorem c4_counterexample :
    (gridOf tallData).length = 1 ∧
    write "out.gltf" tallData sampleFs true = some (Except.ok tallDoc) ∧
    tallDoc.nodes.getLast? = some (rootNodeDef 1 2) ∧
    tallDoc.nodes.getLast? ≠ some (rootNodeDef 1 ((gridOf tallData).length : Int)) ∧
    write "out.gltf" hugeData sampleFs true = some (Except.ok hugeDoc) ∧
    hugeDoc.nodes.getLast?.map NodeDef.translation = some (0, -2, 0) ∧
    hugeDoc.nodes.getLast?.map NodeDef.translation ≠ some (0, 2 * 2147483647, 0) :=
  ⟨by decide, by rfl, by rfl, by decide, by rfl, by decide, by decide⟩

/-- C4 (amended): for every successful export the node array has exactly
`numCells + 1` entries; its last entry is the synthetic root node with
children exactly `[0, …, numCells-1]` in order, translation
`(0, 2*height, 0)` where `height` is the input document's declared
`height` FIELD (not necessarily the number of rows present in `pixels`)
and the doubling is computed in C++ 32-bit `int` arithmetic (signed
overflow modelled as two's-complement wrap-around `wrap32`, the identity
whenever `2*height` fits in `int` range), and the fixed rotation
quaternion; and the output has exactly one scene whose node list is
exactly `[numCells]`, the index of that last node. -/
theorem c4_root_and_scene : ∀ (f : String) (data : JObj)
    (fs : String → TemplateFile) (ok : Bool) (doc : Doc),
    write f data fs ok = some (Except.ok doc) →
    doc.nodes.length = numCellsOf data + 1 ∧
    doc.nodes.getLast? = some
      { mesh := none, translation := (0, wrap32 (2 * heightOf data), 0),
        scale := none, children := some (List.range (numCellsOf data)),
        rotation := some rotationQuat } ∧
    doc.scenes = [[numCellsOf data]] ∧ doc.scene = 0 := by
  intro f data fs ok doc h
  obtain ⟨-, hscene, hscenes, hnodes, -, -⟩ := write_ok_inv h
  refine ⟨?_, ?_, hscenes, hscene⟩
  · rw [hnodes]
    simp [insertNodes, cellNodeDefs, numCellsOf]
  · rw [hnodes, insertNodes, List.getLast?_concat]
    rfl

/-- C4 (witness): the amended claim evaluated on the 1×1 sample export. -/
theorem c4_witness :
    sampleDoc.nodes.length = numCellsOf sampleData + 1 ∧
    sampleDoc.nodes.getLast? = some
      { mesh := none, translation := (0, wrap32 (2 * heightOf sampleData), 0),
        scale := none, children := some (List.range (numCellsOf sampleData)),
        rotation := some rotationQuat } ∧
    sampleDoc.scenes = [[numCellsOf sampleData]] ∧ sampleDoc.scene = 0 :=
  c4_root_and_scene "out.gltf" sampleData sampleFs true sampleDoc (by rfl)

/-- C6: in every generated document, every cell node references a mesh
index strictly below the length of the mesh array, and every mesh
references a material index strictly below the length of the material
array. -/
theorem c6_cross_reference : ∀ (f : String) (data : JObj)
    (fs : String → TemplateFile) (ok : Bool) (doc : Doc),
    write f data fs ok = some (Except.ok doc) →
    (∀ nd ∈ doc.nodes, ∀ m, nd.mesh = some m → m < doc.meshes.length) ∧
    (∀ md ∈ doc.meshes, md.material < doc.materials.length) := by
  intro f data fs ok doc h
  obtain ⟨-, -, -, hnodes, hmeshes, hmats⟩ := write_ok_inv h
  have hinv := stInv_buildState (gridOf data)
  have hmlen : doc.meshes.length = (buildState (gridOf data)).uniqueMeshes.length := by
    rw [hmeshes]
    simp [insertMeshes, scatter_length]
  have hclen : doc.materials.length = (buildState (gridOf data)).uniqueColors.length := by
    rw [hmats]
    simp [insertMaterials, scatter_length]
  constructor
  · intro nd hnd m hm
    rw [hnodes, insertNodes] at hnd
    rw [hmlen]
    rcases List.mem_append.mp hnd with hc | hr
    · rcases List.mem_map.mp hc with ⟨n, hn, rfl⟩
      simp only [Option.some_inj] at hm
      rw [← hm]
      exact hinv.nodeMeshBound n hn
    · simp only [List.mem_singleton] at hr
      rw [hr] at hm
      simp [rootNodeDef] at hm
  · intro md hmd
    rw [hmeshes, insertMeshes, scatter_eq_keys hinv.meshVals] at hmd
    rw [hclen]
    rcases List.mem_map.mp hmd with ⟨p, hp, rfl⟩
    rcases List.mem_map.mp hp with ⟨kv, hkv, rfl⟩
    exact (hinv.meshPairBound kv hkv).2

/-- C6 (witness): in the sample export, the single mesh references
material 0, which is below the one-element material array length. -/
theorem c6_witness :
    ({ position := 0, normal := 1, indices := 2, material := 0 } : MeshDef).material
      < sampleDoc.materials.length :=
  (c6_cross_reference "out.gltf" sampleData sampleFs true sampleDoc (by rfl)).2
    { position := 0, normal := 1, indices := 2, material := 0 } (by decide)

/-- C7: on every input whose `version` field differs from the literal
string `1.0`, the export stops at once with the version-mismatch error
carrying the destination identifier; the result is this error for EVERY
template file system and sink state, so no document is assembled or
written. -/
theorem c7_version_mismatch : ∀ (f : String) (data : JObj)
    (fs : String → TemplateFile) (ok : Bool),
    versionOf data ≠ "1.0" →
    write f data fs ok = some (Except.error
      (f, "Invalid version number [1.0 != " ++ versionOf data ++ "]")) := by
  intro f data fs ok hv
  unfold versionOf at hv
  unfold write
  simp only []
  rw [if_pos hv]
  rfl

/-- C7 (witness): the version `0.9` is rejected with the mismatch error. -/
theorem c7_witness :
    versionOf badVersionData ≠ "1.0" ∧
    write "out.gltf" badVersionData absentFs true = some (Except.error
      ("out.gltf", "Invalid version number [1.0 != "
        ++ versionOf badVersionData ++ "]")) :=
  ⟨by decide, c7_version_mismatch "out.gltf" badVersionData absentFs true (by decide)⟩

/-- C8: on every input with a valid version whose parsed `width` and
`height` integers are unequal, the export stops with the `invalid size`
error (for every template file system and sink state, so nothing is
written); when they are equal the export proceeds past this check and can
never produce the `invalid size` error. -/
theorem c8_size_mismatch : ∀ (f : String) (data : JObj)
    (fs : String → TemplateFile) (ok : Bool),
    versionOf data = "1.0" →
    (widthOf data ≠ heightOf data →
      write f data fs ok = some (Except.error (f, "invalid size"))) ∧
    (widthOf data = heightOf data →
      write f data fs ok ≠ some (Except.error (f, "invalid size"))) := by
  intro f data fs ok hv
  unfold versionOf at hv
  constructor
  · intro hne
    unfold widthOf heightOf at hne
    unfold write
    simp only []
    rw [if_neg (not_not_intro hv), if_pos hne]
  · intro heq hcontra
    unfold widthOf heightOf at heq
    unfold write at hcontra
    simp only [] at hcontra
    rw [if_neg (not_not_intro hv), if_neg (not_not_intro heq)] at hcontra
    split at hcontra
    · simp at hcontra
    · simp at hcontra
    · split at hcontra
      · simp at hcontra
      · simp at hcontra

/-- C8 (witness): `width = 4`, `height = 5` with valid version is rejected
with the `invalid size` error. -/
theorem c8_witness :
    versionOf badSizeData = "1.0" ∧
    widthOf badSizeData ≠ heightOf badSizeData ∧
    write "out.gltf" badSizeData absentFs true
      = some (Except.error ("out.gltf", "invalid size")) :=
  ⟨by decide, by decide,
    (c8_size_mismatch "out.gltf" badSizeData absentFs true (by decide)).1 (by decide)⟩

/-- C9 (counterexample): the claim that a located-but-unparseable template
yields a distinct `template unreadable` failure is false: with a template
file system whose files all exist, open, and fail to parse, the export
SUCCEEDS (the parse yields an empty object and three Undefined values are
inserted, removing the `buffers`/`bufferViews`/`accessors` keys).
Moreover, a missing file and an unopenable file produce identical
results, so those two conditions are not distinguishable either. -/
theorem c9_counterexample :
    write "out.gltf" sampleData unparseableFs true = some (Except.ok
      { asset := assetInfo, scene := 0, scenes := [[1]],
        nodes := insertNodes [⟨0, 1, 0, 0⟩] 1,
        meshes := insertMeshes [(0, 0)],
        materials := insertMaterials ["red"],
        buffers := JVal.undef, bufferViews := JVal.undef,
        accessors := JVal.undef }) ∧
    write "out.gltf" sampleData absentFs true
      = write "out.gltf" sampleData unopenableFs true :=
  ⟨rfl, rfl⟩

/-- C9 (amended): template resolution fails with the single error message
`Can't find or open shape files` both when the geometry bundle for the
first shape name cannot be located and when it is located but cannot be
opened — the two conditions are NOT distinguishable in the export result —
and a bundle that is located and opened but not parseable causes no
failure at all: the export proceeds and succeeds. -/
theorem c9_template_resolution : ∀ (f : String) (data : JObj)
    (fs : String → TemplateFile) (ok : Bool) (s : String),
    versionOf data = "1.0" → widthOf data = heightOf data →
    (shapesOf data).get? 0 = some s →
    (fs (":/ui/exports/" ++ s ++ ".gltf") = TemplateFile.absent →
      write f data fs ok = some (Except.error
        (f, "Can\x27t find or open shape files"))) ∧
    (fs (":/ui/exports/" ++ s ++ ".gltf") = TemplateFile.unopenable →
      write f data fs ok = some (Except.error
        (f, "Can\x27t find or open shape files"))) ∧
    (∀ p, fs (":/ui/exports/" ++ s ++ ".gltf") = TemplateFile.readable p →
      ∃ d, write f data fs true = some (Except.ok d)) := by
  intro f data fs ok s hv hw hs
  unfold versionOf at hv
  unfold widthOf heightOf at hw
  unfold shapesOf gridOf at hs
  refine ⟨?_, ?_, ?_⟩
  · intro hfs
    unfold write
    simp only []
    rw [if_neg (not_not_intro hv), if_neg (not_not_intro hw)]
    unfold insertShapeData
    rw [hs]
    simp only []
    rw [hfs]
  · intro hfs
    unfold write
    simp only []
    rw [if_neg (not_not_intro hv), if_neg (not_not_intro hw)]
    unfold insertShapeData
    rw [hs]
    simp only []
    rw [hfs]
  · intro p hfs
    unfold write
    simp only []
    rw [if_neg (not_not_intro hv), if_neg (not_not_intro hw)]
    unfold insertShapeData
    rw [hs]
    simp only []
    rw [hfs]
    exact ⟨_, rfl⟩

/-- C9 (witness): the amended claim evaluated on the sample input over a
file system with no template files. -/
theorem c9_witness :
    write "out.gltf" sampleData absentFs true = some (Except.error
      ("out.gltf", "Can\x27t find or open shape files")) :=
  (c9_template_resolution "out.gltf" sampleData absentFs true "cube"
    (by decide) (by decide) (by decide)).1 rfl

/-- C10: template resolution reads the shape name at index 0 of the
deduplicated shape vector unconditionally; the shape vector is empty
exactly when the grid yields zero retained cells, and in that case a run
that passes the version and size checks reaches the out-of-bounds
`shapes[0]` access (modelled as the `none` result). -/
theorem c10_first_shape_guard : ∀ (f : String) (data : JObj)
    (fs : String → TemplateFile) (ok : Bool),
    versionOf data = "1.0" → widthOf data = heightOf data →
    ((buildState (gridOf data)).nodes = [] ↔ shapesOf data = []) ∧
    ((buildState (gridOf data)).nodes = [] → write f data fs ok = none) := by
  intro f data fs ok hv hw
  have hscat : shapesOf data = [] ↔ (buildState (gridOf data)).uniqueShapes = [] := by
    unfold shapesOf
    constructor
    · intro h0
      have hm : (buildState (gridOf data)).uniqueShapes.length = 0 := by
        rw [← scatter_length (buildState (gridOf data)).uniqueShapes "", h0]
        rfl
      exact List.length_eq_zero.mp hm
    · intro h0
      rw [h0]
      rfl
  have hiff := (buildState_empty_iff (gridOf data)).trans hscat.symm
  refine ⟨hiff, ?_⟩
  intro hnil
  have hs0 : shapesOf data = [] := hiff.mp hnil
  unfold versionOf at hv
  unfold widthOf heightOf at hw
  unfold shapesOf gridOf at hs0
  unfold write
  simp only []
  rw [if_neg (not_not_intro hv), if_neg (not_not_intro hw)]
  unfold insertShapeData
  rw [hs0]
  rfl

/-- C10 (witness): a valid input with no `pixels` key yields zero retained
cells, an empty shape vector and the undefined-behaviour result. -/
theorem c10_witness :
    versionOf emptyGridData = "1.0" ∧
    widthOf emptyGridData = heightOf emptyGridData ∧
    (buildState (gridOf emptyGridData)).nodes = [] ∧
    write "out.gltf" emptyGridData absentFs true = none :=
  ⟨by decide, by decide, by decide,
    (c10_first_shape_guard "out.gltf" emptyGridData absentFs true
      (by decide) (by decide)).2 (by decide)⟩

end GLTF
